import Mathlib

/-!
Verification of the synthetic hospital-admission record generator
(`Synthetic_Data_Generator.py`).

The Python source is shallowly embedded: reals become rationals, machine
integers become `Int`/`Nat`, and the process-wide pseudo-random source
(`random` / `numpy.random`, both seeded from the same seed) is modelled as a
single abstract stream of rationals together with a position.  Each stdlib
primitive (`random.random`, `random.gauss`, `random.randint`,
`random.choices`, `random.sample`, `numpy.random.poisson`, ...) is a
deterministic interpretation of the next raw stream value that is faithful at
the value level: range-constrained draws (`randint`, index choices) always
land in their documented range, while unbounded draws (`gauss`, `poisson`,
`lognormal`) may return any value of their support.  Distribution shapes
(weights, means, variances) affect only which value a given raw stream
produces, which none of the verified properties depend on; the mean/spread
arguments are kept so the call sites mirror the source.

Sources of randomness that the source code does NOT derive from the seed —
`uuid.uuid4()` for PatientID and the wall clock `datetime.now()` for the
admission/discharge dates and RecordGeneratedAt — are modelled as separate
input streams, independent of the seeded RNG state.
-/

/-- The seeded pseudo-random source: an abstract stream of raw rational
draws plus the current position.  `random.seed(s)` / `np.random.seed(s)`
fix `stream` as a function of the seed and reset `pos`; two runs seeded
identically therefore start from equal `RNG` values. -/
structure RNG where
  stream : Nat → ℚ
  pos : Nat

/-- Consume one raw draw from the seeded stream. -/
def RNG.next (r : RNG) : ℚ × RNG :=
  (r.stream r.pos, ⟨r.stream, r.pos + 1⟩)

/-- `random.random()`: a draw in `[0, 1)`. -/
def randUnit (r : RNG) : ℚ × RNG :=
  let (v, r1) := r.next
  (Int.fract v, r1)

/-- `random.gauss(mu, sigma)` / `np.random.normal(mu, sigma)`: an unbounded
draw; the location/scale parameters shape only the distribution. -/
def gaussDraw (mu sigma : ℚ) (r : RNG) : ℚ × RNG :=
  let (v, r1) := r.next
  (mu + sigma * v, r1)

/-- `np.random.lognormal(mean, sigma)`: an unbounded draw (the source clamps
its uses from below, so the positivity of the true support is never needed). -/
def lognormalDraw (mean sigma : ℚ) (r : RNG) : ℚ × RNG :=
  let (v, r1) := r.next
  (mean + sigma * v, r1)

/-- `random.randint(a, b)`: an integer draw in `[a, b]` (both ends included). -/
def randIntAB (a b : ℤ) (r : RNG) : ℤ × RNG :=
  let (v, r1) := r.next
  (a + ⌊v⌋ % (b - a + 1), r1)

/-- An index draw in `[0, n)`, backing `random.choice` / `random.choices` /
`random.sample`. -/
def choiceIdx (n : Nat) (r : RNG) : Nat × RNG :=
  let (v, r1) := r.next
  (⌊v⌋.toNat % n, r1)

/-- `random.choices(xs, weights=w)[0]` (also `random.choice xs` with uniform
weights): an element of `xs` selected by an in-range index; the weights shape
only the distribution. -/
def choicesW (xs : List α) (_w : List ℚ) (d : α) (r : RNG) : α × RNG :=
  let (i, r1) := choiceIdx xs.length r
  (xs.getD i d, r1)

/-- `np.random.poisson(lam)`: a non-negative unbounded integer draw. -/
def poissonDraw (_lam : ℚ) (r : RNG) : Nat × RNG :=
  let (v, r1) := r.next
  (⌊v⌋.toNat, r1)

/-- Python `int(q)`: truncation toward zero. -/
def pyInt (q : ℚ) : ℤ :=
  if q < 0 then ⌈q⌉ else ⌊q⌋

/-- Python `round(q)` to the nearest integer (ties are immaterial to any
verified property; modelled as round-half-up). -/
def pyRound (q : ℚ) : ℤ := round q

/-- Python `round(q, 1)`: rounding to one decimal place. -/
def round1 (q : ℚ) : ℚ := ((round (10 * q) : ℤ) : ℚ) / 10

/-- `np.clip(x, lo, hi)` on integers, also `max lo (min x hi)` in the stdlib
branches — the two spellings in the source are the same function. -/
def clipI (x lo hi : ℤ) : ℤ := max lo (min x hi)

/-- One row of the Diagnosis Parameter Table:
`{"base_los": ..., "los_sd": ..., "readmit_base": ...}`. -/
structure DiagParams where
  base_los : ℚ
  los_sd : ℚ
  readmit_base : ℚ
deriving DecidableEq

/-- The keys of the `DIAGNOSES` dict, in source order. -/
def DIAGNOSES_keys : List String :=
  ["Hypertension", "Heart Failure", "Pneumonia", "Stroke", "Diabetes",
   "COPD", "Fracture", "Sepsis", "Cancer", "Other"]

/-- `DIAGNOSES.get(d, DIAGNOSES["Other"])`: the parameter-table lookup with
fallback to the `"Other"` row, as every call site in the source performs it. -/
def DIAGNOSES_get (d : String) : DiagParams :=
  if d = "Hypertension" then ⟨3, 2, 5/100⟩
  else if d = "Heart Failure" then ⟨6, 4, 18/100⟩
  else if d = "Pneumonia" then ⟨5, 3, 12/100⟩
  else if d = "Stroke" then ⟨8, 5, 20/100⟩
  else if d = "Diabetes" then ⟨4, 3, 10/100⟩
  else if d = "COPD" then ⟨5, 3, 15/100⟩
  else if d = "Fracture" then ⟨2, 1, 4/100⟩
  else if d = "Sepsis" then ⟨10, 7, 22/100⟩
  else if d = "Cancer" then ⟨7, 6, 14/100⟩
  else ⟨3, 2, 6/100⟩

def GENDERS : List String := ["Male", "Female", "Other"]
def SMOKING_STATUSES : List String := ["Never", "Former", "Current"]
def ALCOHOL_USE : List String := ["None", "Moderate", "Heavy"]
def INSURANCE_TYPES : List String := ["Private", "Public", "Self-Pay"]

/-- `MEDICATION_POOLS.get(d, MEDICATION_POOLS["Other"])`: the formulary
lookup with fallback to the `"Other"` pool. -/
def MEDICATION_POOLS_get (d : String) : List String :=
  if d = "Hypertension" then
    ["ACE Inhibitors", "Beta Blockers", "Calcium Channel Blockers", "Diuretics"]
  else if d = "Heart Failure" then
    ["ACE Inhibitors", "Beta Blockers", "Diuretics", "Aldosterone Antagonists"]
  else if d = "Pneumonia" then ["Antibiotics", "Bronchodilators"]
  else if d = "Stroke" then ["Antiplatelets", "Anticoagulants", "Statins"]
  else if d = "Diabetes" then ["Insulin", "Metformin", "SGLT2 Inhibitors"]
  else if d = "COPD" then ["Bronchodilators", "Inhaled Steroids"]
  else if d = "Fracture" then ["Analgesics", "Opioids"]
  else if d = "Sepsis" then ["Antibiotics", "Vasopressors"]
  else if d = "Cancer" then ["Chemotherapy", "Analgesics"]
  else ["Analgesics", "Multivitamins"]

/-- `readmission_risk(age, diagnosis, prior_adm, los, smoking, bmi)`:
the additive readmission-risk model, clamped by
`min(max(p, 0.01), 0.9)`. -/
def readmission_risk (age : ℚ) (diagnosis : String) (prior_adm : ℕ)
    (los : ℤ) (smoking : String) (bmi : ℚ) : ℚ :=
  let base := (DIAGNOSES_get diagnosis).readmit_base
  let p := base
    + (1/100) * max 0 ((age - 50) / 10)
    + (3/100) * ((min prior_adm 5 : ℕ) : ℚ)
    + (2/100) * max 0 ((bmi - 25) / 5)
    + (if smoking = "Current" then 2/100 else 0)
    + (if los > 7 then 1/100 else 0)
  min (max p (1/100)) (9/10)

/-- The risk score exactly as the specification words it: diagnosis base
rate, plus 0.01 per decade of age above 50, plus 0.03 per prior admission
with the count capped at 5, plus 0.02 per 5 BMI points above 25, plus 0.02
for current smoking, plus 0.01 when the stay exceeds 7 days, the sum clamped
to `[0.01, 0.9]`.  Written independently of `readmission_risk` to be compared
with it. -/
def spec_risk_score (age : ℚ) (diagnosis : String) (prior_adm : ℕ)
    (los : ℤ) (smoking : String) (bmi : ℚ) : ℚ :=
  let baseRate := (DIAGNOSES_get diagnosis).readmit_base
  let ageTerm : ℚ := if age > 50 then (1/100) * ((age - 50) / 10) else 0
  let priorTerm : ℚ := (3/100) * ((min prior_adm 5 : ℕ) : ℚ)
  let bmiTerm : ℚ := if bmi > 25 then (2/100) * ((bmi - 25) / 5) else 0
  let smokeTerm : ℚ := if smoking = "Current" then 2/100 else 0
  let losTerm : ℚ := if los > 7 then 1/100 else 0
  min (max (baseRate + ageTerm + priorTerm + bmiTerm + smokeTerm + losTerm) (1/100)) (9/10)

/-- `realistic_age()`: mixture of an older and a younger cluster, each with a
numpy branch (clamped normal) and a stdlib branch (`randint`).  `useNp`
records whether numpy imported successfully. -/
def realistic_age (useNp : Bool) (r : RNG) : ℤ × RNG :=
  let (u, r1) := randUnit r
  if u < 65/100 then
    if useNp then
      let (g, r2) := gaussDraw 75 8 r1
      (max 18 (min 100 (pyInt g)), r2)
    else
      randIntAB 65 95 r1
  else
    if useNp then
      let (g, r2) := gaussDraw 45 12 r1
      (max 18 (min 64 (pyInt g)), r2)
    else
      randIntAB 18 64 r1

/-- `realistic_bmi(age)`: age-banded normal draw, clipped and rounded to one
decimal. -/
def realistic_bmi (useNp : Bool) (age : ℤ) (r : RNG) : ℚ × RNG :=
  if useNp then
    if age < 30 then
      let (g, r1) := gaussDraw 24 (35/10) r
      (round1 (max 15 (min g 40)), r1)
    else if age < 60 then
      let (g, r1) := gaussDraw 28 (45/10) r
      (round1 (max 18 (min g 45)), r1)
    else
      let (g, r1) := gaussDraw 27 4 r
      (round1 (max 18 (min g 42)), r1)
  else
    let base : ℚ := if age < 30 then 24 else if age < 60 then 28 else 27
    let (g, r1) := gaussDraw base 4 r
    (round1 (min (max g 15) 45), r1)

/-- `realistic_bp(age, diagnosis)`: the systolic/diastolic pair.  The
hypotension branch consumes `random.random()` only when the diagnosis is
Sepsis or Heart Failure (Python `and` short-circuits).  Clamping to
`[70, 220]` / `[40, 130]` is written `np.clip` on the numpy branch and
`max`/`min` on the stdlib branch — the same function either way. -/
def realistic_bp (useNp : Bool) (age : ℤ) (diagnosis : String) (r : RNG) :
    (ℤ × ℤ) × RNG :=
  let (g1, r1) := gaussDraw 125 12 r
  let s0 := pyInt g1
  let (g2, r2) := gaussDraw 78 8 r1
  let d0 := pyInt g2
  let (s1, r3) :=
    if diagnosis = "Hypertension" ∨ age > 70 then
      let (g3, ra) := gaussDraw 10 8 r2
      (s0 + |pyInt g3|, ra)
    else (s0, r2)
  let (s2, d2, r4) :=
    if diagnosis = "Sepsis" ∨ diagnosis = "Heart Failure" then
      let (u, ra) := randUnit r3
      if u < 3/10 then
        let (g4, rb) := gaussDraw 30 10 ra
        let (g5, rc) := gaussDraw 15 6 rb
        (max 80 (s1 - pyInt g4), max 40 (d0 - pyInt g5), rc)
      else (s1, d0, ra)
    else (s1, d0, r3)
  if useNp then ((clipI s2 70 220, clipI d2 40 130), r4)
  else ((max 70 (min s2 220), max 40 (min d2 130)), r4)

/-- `realistic_cholesterol(age)`: normal draw around an age-shifted base,
clamped to `[100, 400]`. -/
def realistic_cholesterol (age : ℤ) (r : RNG) : ℤ × RNG :=
  let base : ℚ := 190 + (1/10) * (max ((age : ℚ) - 40) 0)
  let (g, r1) := gaussDraw base 35 r
  (max 100 (min (pyInt g) 400), r1)

/-- `realistic_hba1c(diagnosis)`: clamped normal draw, elevated for
diabetes, rounded to one decimal. -/
def realistic_hba1c (diagnosis : String) (r : RNG) : ℚ × RNG :=
  if diagnosis = "Diabetes" then
    let (g, r1) := gaussDraw (85/10) (19/10) r
    (round1 (max (56/10) (min g 15)), r1)
  else
    let (g, r1) := gaussDraw (54/10) (4/10) r
    (round1 (max (45/10) (min g (75/10))), r1)

/-- `random.sample(pool, n)`: select `n` distinct elements without
replacement, modelled by repeatedly drawing an in-range index and erasing
the selected position. -/
def sampleList (pool : List String) : Nat → RNG → List String × RNG
  | 0, r => ([], r)
  | n + 1, r =>
    if pool.isEmpty then ([], r)
    else
      let (i, r1) := choiceIdx pool.length r
      let idx := i % pool.length
      let x := pool.getD idx ""
      let (rest, r2) := sampleList (pool.eraseIdx idx) n r1
      (x :: rest, r2)

/-- The count draw `random.choices([1, 2, 3], weights=[0.6, 0.3, 0.1])[0]`
inside `select_medications`. -/
def meds_count_draw (r : RNG) : ℕ × RNG :=
  choicesW [1, 2, 3] [6/10, 3/10, 1/10] 1 r

/-- `select_medications(diagnosis)`: draw `k ∈ {1,2,3}` and sample
`min(k, len(pool))` distinct drugs from the diagnosis's formulary (fallback
to the `"Other"` pool).  The source joins the selected list with `"; "`;
the list of entries is what the record-level properties speak about. -/
def select_medications (diagnosis : String) (r : RNG) : List String × RNG :=
  let pool := MEDICATION_POOLS_get diagnosis
  let (k, r1) := meds_count_draw r
  sampleList pool (min k pool.length) r1

/-- The base LOS draw of `length_of_stay_for`: lognormal
(`int(max(1, round(np.random.lognormal(np.log(max(0.9, base)), 0.5))))`) on
the numpy branch, normal (`max(1, int(random.gauss(base, sd)))`) on the
stdlib branch. -/
def los_base_draw (useNp : Bool) (diagnosis : String) (r : RNG) : ℤ × RNG :=
  let params := DIAGNOSES_get diagnosis
  if useNp then
    let (v, ra) := lognormalDraw (max (9/10) params.base_los) (5/10) r
    (max 1 (pyRound v), ra)
  else
    let (g, ra) := gaussDraw params.base_los params.los_sd r
    (max 1 (pyInt g), ra)

/-- The age bonus of `length_of_stay_for`:
`los += int(random.choice([0, 1, 2]))` when `age >= 80`. -/
def los_age_bonus (age : ℤ) (p : ℤ × RNG) : ℤ × RNG :=
  if age ≥ 80 then
    let (c, ra) := choicesW [0, 1, 2] [1, 1, 1] 0 p.2
    (p.1 + c, ra)
  else p

/-- The long-tail extension of `length_of_stay_for`:
`los += random.randint(5, 30)` when `random.random() < 0.02`. -/
def los_long_tail (p : ℤ × RNG) : ℤ × RNG :=
  let (u, r3) := randUnit p.2
  if u < 2/100 then
    let (t, r4) := randIntAB 5 30 r3
    (p.1 + t, r4)
  else (p.1, r3)

/-- `length_of_stay_for(diagnosis, age)`: skewed base draw (lognormal on
numpy, normal on stdlib), an additive 0/1/2 bonus for age ≥ 80, and a rare
(`random.random() < 0.02`) long-tail extension of `randint(5, 30)` days —
the source's three statements in order. -/
def length_of_stay_for (useNp : Bool) (diagnosis : String) (age : ℤ)
    (r : RNG) : ℤ × RNG :=
  los_long_tail (los_age_bonus age (los_base_draw useNp diagnosis r))

/-- The stdlib fallback inside `prior_admissions_for`: `n` Bernoulli trials
`random.random() < p`, counting successes. -/
def bernoulliTrials (p : ℚ) : Nat → RNG → ℕ × RNG
  | 0, r => (0, r)
  | n + 1, r =>
    let (u, r1) := randUnit r
    let (c, r2) := bernoulliTrials p n r1
    ((if u < p then 1 else 0) + c, r2)

/-- `prior_admissions_for(age)`: Poisson draw on the numpy branch, a sum of
6 Bernoulli trials on the stdlib branch, capped at 20 either way. -/
def prior_admissions_for (useNp : Bool) (age : ℤ) (r : RNG) : ℕ × RNG :=
  let lam : ℚ := if age < 40 then 2/10 else if age < 65 then 7/10 else 16/10
  if useNp then
    let (v, r1) := poissonDraw lam r
    (min v 20, r1)
  else
    let (v, r1) := bernoulliTrials (lam / (15/10)) 6 r
    (min v 20, r1)

/-- `smoking_for(age)`: age-banded weighted categorical draw. -/
def smoking_for (age : ℤ) (r : RNG) : String × RNG :=
  if age < 30 then
    choicesW SMOKING_STATUSES [6/10, 15/100, 25/100] "Never" r
  else if age < 65 then
    choicesW SMOKING_STATUSES [5/10, 25/100, 25/100] "Never" r
  else
    choicesW SMOKING_STATUSES [6/10, 3/10, 1/10] "Never" r

/-- `alcohol_for(_age)`: weighted categorical draw, age-independent. -/
def alcohol_for (_age : ℤ) (r : RNG) : String × RNG :=
  choicesW ALCOHOL_USE [35/100, 55/100, 1/10] "None" r

/-- The calendar day (`strftime("%Y-%m-%d")`) of a timestamp measured in
minutes: the floor of the day count. -/
def dayOf (t : ℤ) : ℤ := ⌊(t : ℚ) / 1440⌋

/-- `admission_and_discharge_dates(length_of_stay_days)`: admission is `now`
minus `int(abs(gauss(200, 150)))` days plus a `randint(0, 1440)`-minute
jitter; discharge is admission plus the stay plus an
`randint(0, 23)`-hour / `randint(0, 59)`-minute jitter.  Both are rendered
as calendar days.  `now1` is the wall-clock instant (`datetime.now()`) in
minutes, an input the seeded RNG does not determine. -/
def admission_and_discharge_dates (length_of_stay_days : ℤ) (now1 : ℤ)
    (r : RNG) : (ℤ × ℤ) × RNG :=
  let (g, r1) := gaussDraw 200 150 r
  let days_back := pyInt |g|
  let (j, r2) := randIntAB 0 1440 r1
  let admission := now1 - days_back * 1440 + j
  let (h, r3) := randIntAB 0 23 r2
  let (m, r4) := randIntAB 0 59 r3
  let discharge := admission + length_of_stay_days * 1440 + h * 60 + m
  ((dayOf admission, dayOf discharge), r4)

/-- One synthetic admission record, with the source's field names.
`PatientID` carries the `uuid.uuid4()` token (modelled as a number from the
uuid entropy stream); `AdmissionDate` / `DischargeDate` are calendar days;
`RecordGeneratedAt` is the wall-clock timestamp of synthesis. -/
structure Record where
  PatientID : ℕ
  Age : ℤ
  Gender : String
  AdmissionDate : ℤ
  DischargeDate : ℤ
  Diagnosis : String
  LengthOfStay : ℤ
  PriorAdmissions : ℕ
  Medications : List String
  ReadmittedWithin30Days : ℕ
  BMI : ℚ
  SmokingStatus : String
  AlcoholUse : String
  BloodPressure : ℤ × ℤ
  CholesterolLevel : ℤ
  HbA1c : ℚ
  FollowUpAppointmentScheduled : ℕ
  InsuranceType : String
  RecordGeneratedAt : ℤ
deriving DecidableEq

/-- `generate_patient_record()`: one full pass of the record assembler, in
the source's sampling order.  `uuidVal` is the `uuid.uuid4().hex[:8]` token
and `now1` / `now2` the two `datetime.now()` readings (inside
`admission_and_discharge_dates` and for `RecordGeneratedAt`); none of the
three comes from the seeded RNG. -/
def generate_patient_record (useNp : Bool) (r : RNG) (uuidVal : ℕ)
    (now1 now2 : ℤ) : Record × RNG :=
  let (age, r1) := realistic_age useNp r
  let (gender, r2) := choicesW GENDERS [1, 1, 1] "Male" r1
  let diag_weights : List ℚ :=
    if age ≥ 80 then
      [15/100, 20/100, 5/100, 5/100, 8/100, 12/100, 5/100, 5/100, 10/100, 15/100]
    else if age ≥ 65 then
      [20/100, 18/100, 6/100, 7/100, 8/100, 10/100, 4/100, 5/100, 7/100, 15/100]
    else
      [18/100, 8/100, 6/100, 3/100, 12/100, 5/100, 12/100, 4/100, 15/100, 17/100]
  let (diagnosis, r3) := choicesW DIAGNOSES_keys diag_weights "Other" r2
  let (los, r4) := length_of_stay_for useNp diagnosis age r3
  let (prior_adm, r5) := prior_admissions_for useNp age r4
  let (dates, r6) := admission_and_discharge_dates los now1 r5
  let (bmi, r7) := realistic_bmi useNp age r6
  let (smoking, r8) := smoking_for age r7
  let (alcohol, r9) := alcohol_for age r8
  let (bp, r10) := realistic_bp useNp age diagnosis r9
  let (chol, r11) := realistic_cholesterol age r10
  let (hba1c, r12) := realistic_hba1c diagnosis r11
  let (meds, r13) := select_medications diagnosis r12
  let (uf, r14) := randUnit r13
  let follow_up : ℕ := if uf < 7/10 then 1 else 0
  let (insurance, r15) := choicesW INSURANCE_TYPES [5/10, 4/10, 1/10] "Private" r14
  let readmit_prob := readmission_risk (age : ℚ) diagnosis prior_adm los smoking bmi
  let (ur, r16) := randUnit r15
  let readmitted : ℕ := if ur < readmit_prob then 1 else 0
  ({ PatientID := uuidVal
     Age := age
     Gender := gender
     AdmissionDate := dates.1
     DischargeDate := dates.2
     Diagnosis := diagnosis
     LengthOfStay := los
     PriorAdmissions := prior_adm
     Medications := meds
     ReadmittedWithin30Days := readmitted
     BMI := bmi
     SmokingStatus := smoking
     AlcoholUse := alcohol
     BloodPressure := bp
     CholesterolLevel := chol
     HbA1c := hba1c
     FollowUpAppointmentScheduled := follow_up
     InsuranceType := insurance
     RecordGeneratedAt := now2 }, r16)

/-- The fields of a `Record` whose values are derived from the seeded RNG
alone — every field except `PatientID` (uuid entropy) and
`AdmissionDate` / `DischargeDate` / `RecordGeneratedAt` (wall clock). -/
def seededFields (rec : Record) :
    ℤ × String × String × ℤ × ℕ × List String × ℕ × ℚ × String × String ×
    (ℤ × ℤ) × ℤ × ℚ × ℕ × String :=
  (rec.Age, rec.Gender, rec.Diagnosis, rec.LengthOfStay, rec.PriorAdmissions,
   rec.Medications, rec.ReadmittedWithin30Days, rec.BMI, rec.SmokingStatus,
   rec.AlcoholUse, rec.BloodPressure, rec.CholesterolLevel, rec.HbA1c,
   rec.FollowUpAppointmentScheduled, rec.InsuranceType)

/-- The batch loop from record index `i`: each record consumes the next uuid
token and two wall-clock readings, threading the seeded RNG state. -/
def runGeneratorFrom (useNp : Bool) (uuid : ℕ → ℕ) (clock : ℕ → ℤ) :
    RNG → ℕ → ℕ → List Record
  | _, _, 0 => []
  | r, i, n + 1 =>
    let (rec, r1) := generate_patient_record useNp r (uuid i)
      (clock (2 * i)) (clock (2 * i + 1))
    rec :: runGeneratorFrom useNp uuid clock r1 (i + 1) n

/-- A run of `n` calls to `generate_patient_record`: the seeded RNG starts
from the state `random.seed(s)` produces, while `uuid` and `clock` are the
run's unseeded entropy and wall-clock streams. -/
def runGenerator (useNp : Bool) (r : RNG) (uuid : ℕ → ℕ) (clock : ℕ → ℤ)
    (n : ℕ) : List Record :=
  runGeneratorFrom useNp uuid clock r 0 n

/-- A line of the CSV file: the header written by `writer.writeheader()`, or
one data row written by `writer.writerow(r)`. -/
inductive CsvLine where
  | header : CsvLine
  | row : Record → CsvLine
deriving DecidableEq

/-- Whether a CSV line is a data row. -/
def CsvLine.isRow : CsvLine → Bool
  | .header => false
  | .row _ => true

/-- Whether a CSV line is the header. -/
def CsvLine.isHeader : CsvLine → Bool
  | .header => true
  | .row _ => false

/-- `append_to_csv(rows, csv_path)`: the target file is `none` when missing,
`some lines` otherwise; `write_header` is `not os.path.exists(csv_path) or
os.path.getsize(csv_path) == 0`, i.e. the file is missing or empty.  The
call appends the header (when due) and one row per record, in order. -/
def append_to_csv (rows : List Record) (file : Option (List CsvLine)) :
    List CsvLine :=
  let existing := file.getD []
  let write_header := existing.isEmpty
  existing ++ (if write_header then [CsvLine.header] else []) ++ rows.map CsvLine.row

/-- A sequence of `append_to_csv` calls against the same path, starting from
the given file state; after each call the file holds that call's result. -/
def runAppends : Option (List CsvLine) → List (List Record) →
    Option (List CsvLine)
  | file, [] => file
  | file, b :: bs => runAppends (some (append_to_csv b file)) bs

/-! ## Helper lemmas -/

/-- `round` on rationals is monotone. -/
lemma roundQ_mono {x y : ℚ} (h : x ≤ y) : round x ≤ round y := by
  rw [round_eq, round_eq]
  exact Int.floor_le_floor (by linarith)

/-- Rounding to one decimal stays between bounds that are multiples of a
tenth. -/
lemma round1_bounds {n m : ℤ} {q : ℚ} (h1 : (n : ℚ) / 10 ≤ q)
    (h2 : q ≤ (m : ℚ) / 10) :
    (n : ℚ) / 10 ≤ round1 q ∧ round1 q ≤ (m : ℚ) / 10 := by
  unfold round1
  have l1 : n ≤ round (10 * q) := by
    have := roundQ_mono (show (n : ℚ) ≤ 10 * q by linarith)
    rwa [round_intCast] at this
  have l2 : round (10 * q) ≤ m := by
    have := roundQ_mono (show 10 * q ≤ (m : ℚ) by linarith)
    rwa [round_intCast] at this
  have c1 : (n : ℚ) ≤ ((round (10 * q) : ℤ) : ℚ) := by exact_mod_cast l1
  have c2 : ((round (10 * q) : ℤ) : ℚ) ≤ (m : ℚ) := by exact_mod_cast l2
  constructor <;> linarith

/-- `random.randint(a, b)` lands in `[a, b]`. -/
lemma randIntAB_bounds (a b : ℤ) (r : RNG) (h : a ≤ b) :
    a ≤ (randIntAB a b r).1 ∧ (randIntAB a b r).1 ≤ b := by
  unfold randIntAB RNG.next
  have hne : b - a + 1 ≠ 0 := by omega
  have h1 := Int.emod_nonneg ⌊r.stream r.pos⌋ hne
  have h2 := Int.emod_lt_of_pos ⌊r.stream r.pos⌋ (show (0:ℤ) < b - a + 1 by omega)
  dsimp only
  constructor <;> omega

/-- The index behind `random.choices` is in range when the list is
nonempty. -/
lemma choiceIdx_lt (n : Nat) (r : RNG) (h : 0 < n) : (choiceIdx n r).1 < n := by
  unfold choiceIdx RNG.next
  exact Nat.mod_lt _ h

/-- `random.choices(xs, ...)` returns an element of `xs`. -/
lemma choicesW_mem (xs : List α) (w : List ℚ) (d : α) (r : RNG)
    (h : xs ≠ []) : (choicesW xs w d r).1 ∈ xs := by
  unfold choicesW
  dsimp only
  have hl : 0 < xs.length := List.length_pos.mpr h
  rw [List.getD_eq_getElem _ _ (choiceIdx_lt xs.length r hl)]
  exact List.getElem_mem _

/-- Day arithmetic: shifting a timestamp by whole days shifts its calendar
day by as much. -/
lemma dayOf_add_days (t k : ℤ) : dayOf (t + k * 1440) = dayOf t + k := by
  unfold dayOf
  have h : ((t + k * 1440 : ℤ) : ℚ) / 1440 = (t : ℚ) / 1440 + (k : ℚ) := by
    push_cast
    ring
  rw [h, Int.floor_add_int]

/-- The calendar day is monotone in the timestamp. -/
lemma dayOf_mono {s t : ℤ} (h : s ≤ t) : dayOf s ≤ dayOf t := by
  unfold dayOf
  apply Int.floor_le_floor
  have : (s : ℚ) ≤ (t : ℚ) := by exact_mod_cast h
  linarith

/-- A sub-day shift moves the calendar day by at most one. -/
lemma dayOf_add_subday {t e : ℤ} (he0 : 0 ≤ e) (he : e < 1440) :
    dayOf t ≤ dayOf (t + e) ∧ dayOf (t + e) ≤ dayOf t + 1 := by
  constructor
  · exact dayOf_mono (by omega)
  · have h := dayOf_mono (show t + e ≤ t + 1 * 1440 by omega)
    rwa [dayOf_add_days t 1] at h

/-- The day difference across a stay of `los` days plus a sub-day jitter is
`los` or `los + 1`, and the discharge day is strictly later when
`1 ≤ los`. -/
lemma discharge_day_diff (A los e : ℤ) (hlos : 1 ≤ los) (he0 : 0 ≤ e)
    (he : e < 1440) :
    dayOf A < dayOf (A + los * 1440 + e) ∧
    (dayOf (A + los * 1440 + e) - dayOf A = los ∨
     dayOf (A + los * 1440 + e) - dayOf A = los + 1) := by
  have h1 : dayOf (A + los * 1440 + e) = dayOf (A + e) + los := by
    have harg : A + los * 1440 + e = (A + e) + los * 1440 := by ring
    rw [harg, dayOf_add_days]
  obtain ⟨h2, h3⟩ := dayOf_add_subday (t := A) he0 he
  constructor
  · omega
  · omega

/-- `bernoulliTrials` counts at most its number of trials. -/
lemma bernoulliTrials_le (p : ℚ) (n : Nat) (r : RNG) :
    (bernoulliTrials p n r).1 ≤ n := by
  induction n generalizing r with
  | zero => simp [bernoulliTrials]
  | succ n ih =>
    unfold bernoulliTrials
    dsimp only
    split
    · have := ih ((randUnit r).2)
      omega
    · have := ih ((randUnit r).2)
      omega

/-- `random.sample` returns exactly `min n pool.length` elements. -/
lemma sampleList_length (n : Nat) (pool : List String) (r : RNG) :
    ((sampleList pool n r).1).length = min n pool.length := by
  induction n generalizing pool r with
  | zero => simp [sampleList]
  | succ n ih =>
    unfold sampleList
    dsimp only
    split
    · next hp =>
      have hnil : pool = [] := by simpa using hp
      simp [hnil]
    · next hp =>
      have hne : pool ≠ [] := by simpa using hp
      have hlen : 0 < pool.length := List.length_pos.mpr hne
      have hidx : (choiceIdx pool.length r).1 % pool.length < pool.length :=
        Nat.mod_lt _ hlen
      dsimp only
      rw [List.length_cons, ih]
      have hl := List.length_eraseIdx_add_one hidx
      omega

/-- Every element `random.sample` returns comes from the pool. -/
lemma sampleList_subset (n : Nat) (pool : List String) (r : RNG) :
    ∀ x ∈ (sampleList pool n r).1, x ∈ pool := by
  induction n generalizing pool r with
  | zero => simp [sampleList]
  | succ n ih =>
    unfold sampleList
    dsimp only
    split
    · simp
    · next hp =>
      have hne : pool ≠ [] := by simpa using hp
      have hlen : 0 < pool.length := List.length_pos.mpr hne
      have hidx : (choiceIdx pool.length r).1 % pool.length < pool.length :=
        Nat.mod_lt _ hlen
      dsimp only
      intro x hx
      rcases List.mem_cons.mp hx with h | h
      · subst h
        rw [List.getD_eq_getElem _ _ hidx]
        exact List.getElem_mem _
      · exact List.eraseIdx_subset _ _ (ih _ _ _ h)

/-- `random.sample` from a duplicate-free pool returns distinct elements. -/
lemma sampleList_nodup (n : Nat) (pool : List String) (r : RNG)
    (hp : pool.Nodup) : ((sampleList pool n r).1).Nodup := by
  induction n generalizing pool r with
  | zero => simp [sampleList]
  | succ n ih =>
    unfold sampleList
    dsimp only
    split
    · simp
    · next hcond =>
      have hne : pool ≠ [] := by simpa using hcond
      have hlen : 0 < pool.length := List.length_pos.mpr hne
      have hidx : (choiceIdx pool.length r).1 % pool.length < pool.length :=
        Nat.mod_lt _ hlen
      dsimp only
      rw [List.nodup_cons]
      refine ⟨?_, ih _ _ ((List.eraseIdx_sublist pool _).nodup hp)⟩
      intro hmem
      rw [List.getD_eq_getElem _ _ hidx] at hmem
      have hsub := sampleList_subset n
        (pool.eraseIdx ((choiceIdx pool.length r).1 % pool.length))
        ((choiceIdx pool.length r).2) _ hmem
      rw [← hp.erase_getElem _ hidx] at hsub
      exact hp.not_mem_erase hsub

/-! ## Claim theorems -/

/-- C2: for every age, diagnosis, prior-admission count, length of stay,
smoking status and BMI, `readmission_risk` returns exactly the additive
score the specification describes — diagnosis base rate, plus 0.01 per
decade of age above 50, plus 0.03 per prior admission capped at 5, plus
0.02 per 5 BMI points above 25, plus 0.02 for current smoking, plus 0.01
when the stay exceeds 7 days — clamped to `[0.01, 0.9]`. -/
theorem C2_risk_is_spec_formula (age : ℚ) (diagnosis : String)
    (prior_adm : ℕ) (los : ℤ) (smoking : String) (bmi : ℚ) :
    readmission_risk age diagnosis prior_adm los smoking bmi =
      spec_risk_score age diagnosis prior_adm los smoking bmi := by
  simp only [readmission_risk, spec_risk_score]
  have h1 : max 0 ((age - 50) / 10) =
      if age > 50 then (age - 50) / 10 else 0 := by
    rcases le_or_lt age 50 with h | h
    · rw [if_neg (not_lt.mpr h)]
      exact max_eq_left (by linarith)
    · rw [if_pos h]
      exact max_eq_right (by linarith)
  have h2 : max 0 ((bmi - 25) / 5) =
      if bmi > 25 then (bmi - 25) / 5 else 0 := by
    rcases le_or_lt bmi 25 with h | h
    · rw [if_neg (not_lt.mpr h)]
      exact max_eq_left (by linarith)
    · rw [if_pos h]
      exact max_eq_right (by linarith)
  rw [h1, h2]
  simp only [mul_ite, mul_zero]

/-- C3: the output of `readmission_risk` always lies in `[0.01, 0.9]`, and,
holding every other input fixed, it is monotone non-decreasing in the
prior-admission count, and monotone non-decreasing in BMI above 25. -/
theorem C3_risk_bounds_and_monotone :
    (∀ (age : ℚ) (d : String) (pa : ℕ) (los : ℤ) (s : String) (bmi : ℚ),
      1/100 ≤ readmission_risk age d pa los s bmi ∧
      readmission_risk age d pa los s bmi ≤ 9/10) ∧
    (∀ (age : ℚ) (d : String) (pa1 pa2 : ℕ) (los : ℤ) (s : String) (bmi : ℚ),
      pa1 ≤ pa2 →
      readmission_risk age d pa1 los s bmi ≤ readmission_risk age d pa2 los s bmi) ∧
    (∀ (age : ℚ) (d : String) (pa : ℕ) (los : ℤ) (s : String) (bmi1 bmi2 : ℚ),
      25 ≤ bmi1 → bmi1 ≤ bmi2 →
      readmission_risk age d pa los s bmi1 ≤ readmission_risk age d pa los s bmi2) := by
  refine ⟨?_, ?_, ?_⟩
  · intro age d pa los s bmi
    simp only [readmission_risk]
    constructor
    · exact le_min (le_max_right _ _) (by norm_num)
    · exact min_le_right _ _
  · intro age d pa1 pa2 los s bmi h
    simp only [readmission_risk]
    apply min_le_min _ le_rfl
    apply max_le_max _ le_rfl
    have hc : ((min pa1 5 : ℕ) : ℚ) ≤ ((min pa2 5 : ℕ) : ℚ) := by
      exact_mod_cast min_le_min h le_rfl
    have : (3/100 : ℚ) * ((min pa1 5 : ℕ) : ℚ) ≤ (3/100) * ((min pa2 5 : ℕ) : ℚ) := by
      linarith
    linarith
  · intro age d pa los s bmi1 bmi2 _h25 hle
    simp only [readmission_risk]
    apply min_le_min _ le_rfl
    apply max_le_max _ le_rfl
    have hmax : max 0 ((bmi1 - 25) / 5) ≤ max 0 ((bmi2 - 25) / 5) :=
      max_le_max le_rfl (by linarith)
    have : (2/100 : ℚ) * max 0 ((bmi1 - 25) / 5) ≤ (2/100) * max 0 ((bmi2 - 25) / 5) := by
      linarith
    linarith

/-- Witness for C3 at concrete inputs. -/
theorem C3_witness :
    (1/100 ≤ readmission_risk 72 "Sepsis" 2 3 "Never" 30 ∧
      readmission_risk 72 "Sepsis" 2 3 "Never" 30 ≤ 9/10) ∧
    readmission_risk 72 "Sepsis" 2 3 "Never" 30 ≤
      readmission_risk 72 "Sepsis" 4 3 "Never" 30 ∧
    readmission_risk 72 "Sepsis" 2 3 "Never" 30 ≤
      readmission_risk 72 "Sepsis" 2 3 "Never" 33 :=
  ⟨C3_risk_bounds_and_monotone.1 72 "Sepsis" 2 3 "Never" 30,
   C3_risk_bounds_and_monotone.2.1 72 "Sepsis" 2 4 3 "Never" 30 (by norm_num),
   C3_risk_bounds_and_monotone.2.2 72 "Sepsis" 2 3 "Never" 30 33 (by norm_num) (by norm_num)⟩

/-- C4: for every stay length of at least one day (which
`length_of_stay_for` guarantees), `admission_and_discharge_dates` returns a
discharge date strictly later than the admission date, and the day
difference equals the length of stay or exceeds it by one, the excess coming
from the sub-day hour/minute jitter. -/
theorem C4_discharge_after_admission (los now1 : ℤ) (r : RNG)
    (hlos : 1 ≤ los) :
    (admission_and_discharge_dates los now1 r).1.1 <
      (admission_and_discharge_dates los now1 r).1.2 ∧
    ((admission_and_discharge_dates los now1 r).1.2 -
        (admission_and_discharge_dates los now1 r).1.1 = los ∨
     (admission_and_discharge_dates los now1 r).1.2 -
        (admission_and_discharge_dates los now1 r).1.1 = los + 1) := by
  unfold admission_and_discharge_dates
  dsimp only
  set g := (gaussDraw 200 150 r) with hg
  set A := now1 - pyInt |g.1| * 1440 + (randIntAB 0 1440 g.2).1 with hA
  set hh := (randIntAB 0 23 (randIntAB 0 1440 g.2).2).1 with hhh
  set mm := (randIntAB 0 59 (randIntAB 0 23 (randIntAB 0 1440 g.2).2).2).1 with hmm
  have hhb := randIntAB_bounds 0 23 (randIntAB 0 1440 g.2).2 (by norm_num)
  have hmb := randIntAB_bounds 0 59 (randIntAB 0 23 (randIntAB 0 1440 g.2).2).2 (by norm_num)
  have harg : A + los * 1440 + hh * 60 + mm = A + los * 1440 + (hh * 60 + mm) := by
    ring
  rw [harg]
  exact discharge_day_diff A los (hh * 60 + mm) hlos (by omega) (by omega)

/-- Witness for C4 at a concrete stay, clock instant and RNG state. -/
theorem C4_witness :
    (admission_and_discharge_dates 1 0 ⟨fun _ => 0, 0⟩).1.1 <
      (admission_and_discharge_dates 1 0 ⟨fun _ => 0, 0⟩).1.2 ∧
    ((admission_and_discharge_dates 1 0 ⟨fun _ => 0, 0⟩).1.2 -
        (admission_and_discharge_dates 1 0 ⟨fun _ => 0, 0⟩).1.1 = 1 ∨
     (admission_and_discharge_dates 1 0 ⟨fun _ => 0, 0⟩).1.2 -
        (admission_and_discharge_dates 1 0 ⟨fun _ => 0, 0⟩).1.1 = 1 + 1) :=
  C4_discharge_after_admission 1 0 ⟨fun _ => 0, 0⟩ (by norm_num)

/-- Ages land in `[18, 100]` on every branch of `realistic_age`. -/
lemma realistic_age_bounds (useNp : Bool) (r : RNG) :
    18 ≤ (realistic_age useNp r).1 ∧ (realistic_age useNp r).1 ≤ 100 := by
  unfold realistic_age
  dsimp only
  split
  · split
    · dsimp only
      omega
    · have h := randIntAB_bounds 65 95 (randUnit r).2 (by norm_num)
      omega
  · split
    · dsimp only
      omega
    · have h := randIntAB_bounds 18 64 (randUnit r).2 (by norm_num)
      omega

/-- BMI lands in `[15, 45]` on every branch of `realistic_bmi`. -/
lemma realistic_bmi_bounds (useNp : Bool) (age : ℤ) (r : RNG) :
    15 ≤ (realistic_bmi useNp age r).1 ∧ (realistic_bmi useNp age r).1 ≤ 45 := by
  unfold realistic_bmi
  dsimp only
  split
  · split
    · dsimp only
      have h := round1_bounds (n := 150) (m := 400)
        (q := max (15:ℚ) (min (gaussDraw 24 (35/10) r).1 40))
        (by push_cast; norm_num)
        (by push_cast; norm_num)
      constructor
      · have := h.1
        push_cast at this
        linarith
      · have := h.2
        push_cast at this
        linarith
    · split
      · dsimp only
        have h := round1_bounds (n := 180) (m := 450)
          (q := max (18:ℚ) (min (gaussDraw 28 (45/10) r).1 45))
          (by push_cast; norm_num)
          (by push_cast; norm_num)
        constructor
        · have := h.1
          push_cast at this
          linarith
        · have := h.2
          push_cast at this
          linarith
      · dsimp only
        have h := round1_bounds (n := 180) (m := 420)
          (q := max (18:ℚ) (min (gaussDraw 27 4 r).1 42))
          (by push_cast; norm_num)
          (by push_cast; norm_num)
        constructor
        · have := h.1
          push_cast at this
          linarith
        · have := h.2
          push_cast at this
          linarith
  · dsimp only
    have h := round1_bounds (n := 150) (m := 450)
      (q := min (max (gaussDraw (if age < 30 then 24 else if age < 60 then 28 else 27) 4 r).1 15) 45)
      (by push_cast; norm_num)
      (by push_cast; norm_num)
    constructor
    · have := h.1
      push_cast at this
      linarith
    · have := h.2
      push_cast at this
      linarith

/-- Blood pressure lands in `[70, 220] × [40, 130]` on every branch of
`realistic_bp`. -/
lemma realistic_bp_bounds (useNp : Bool) (age : ℤ) (d : String) (r : RNG) :
    70 ≤ (realistic_bp useNp age d r).1.1 ∧
    (realistic_bp useNp age d r).1.1 ≤ 220 ∧
    40 ≤ (realistic_bp useNp age d r).1.2 ∧
    (realistic_bp useNp age d r).1.2 ≤ 130 := by
  unfold realistic_bp clipI
  dsimp only
  repeat' split
  all_goals dsimp only
  all_goals omega

/-- Cholesterol lands in `[100, 400]`. -/
lemma realistic_cholesterol_bounds (age : ℤ) (r : RNG) :
    100 ≤ (realistic_cholesterol age r).1 ∧
    (realistic_cholesterol age r).1 ≤ 400 := by
  unfold realistic_cholesterol
  dsimp only
  omega

/-- HbA1c lands in `[4.5, 15]`: in `[5.6, 15]` for diabetes, in
`[4.5, 7.5]` otherwise. -/
lemma realistic_hba1c_bounds (d : String) (r : RNG) :
    45/10 ≤ (realistic_hba1c d r).1 ∧ (realistic_hba1c d r).1 ≤ 15 := by
  unfold realistic_hba1c
  dsimp only
  split
  · have h := round1_bounds (n := 56) (m := 150)
      (q := max ((56:ℚ)/10) (min (gaussDraw (85/10) (19/10) r).1 15))
      (by push_cast; norm_num)
      (by push_cast; norm_num)
    constructor
    · have := h.1
      push_cast at this
      linarith
    · have := h.2
      push_cast at this
      linarith
  · have h := round1_bounds (n := 45) (m := 75)
      (q := max ((45:ℚ)/10) (min (gaussDraw (54/10) (4/10) r).1 (75/10)))
      (by push_cast; norm_num)
      (by push_cast; norm_num)
    constructor
    · have := h.1
      push_cast at this
      linarith
    · have := h.2
      push_cast at this
      linarith

/-- Prior admissions land in `[0, 20]` on both branches. -/
lemma prior_admissions_bounds (useNp : Bool) (age : ℤ) (r : RNG) :
    (prior_admissions_for useNp age r).1 ≤ 20 := by
  unfold prior_admissions_for
  dsimp only
  split
  · exact min_le_right _ _
  · exact min_le_right _ _

/-- The entries of the `[0, 1, 2]` age bonus are non-negative. -/
lemma age_bonus_nonneg (i : Nat) : (0:ℤ) ≤ ([0, 1, 2] : List ℤ).getD i 0 := by
  rcases i with _ | _ | _ | n <;> simp [List.getD]


/-- The base LOS draw is at least one day. -/
lemma los_base_draw_ge_one (useNp : Bool) (d : String) (r : RNG) :
    1 ≤ (los_base_draw useNp d r).1 := by
  unfold los_base_draw
  dsimp only
  split
  · exact le_max_left _ _
  · exact le_max_left _ _

/-- The age bonus never decreases the LOS. -/
lemma los_age_bonus_mono (age : ℤ) (p : ℤ × RNG) :
    p.1 ≤ (los_age_bonus age p).1 := by
  unfold los_age_bonus choicesW
  dsimp only
  split
  · have := age_bonus_nonneg (choiceIdx ([0, 1, 2] : List ℤ).length p.2).1
    omega
  · exact le_rfl

/-- The long-tail extension never decreases the LOS. -/
lemma los_long_tail_mono (p : ℤ × RNG) : p.1 ≤ (los_long_tail p).1 := by
  unfold los_long_tail
  dsimp only
  split
  · have := (randIntAB_bounds 5 30 (randUnit p.2).2 (by norm_num)).1
    omega
  · exact le_rfl

/-- Length of stay is always at least one day. -/
lemma length_of_stay_ge_one (useNp : Bool) (d : String) (age : ℤ) (r : RNG) :
    1 ≤ (length_of_stay_for useNp d age r).1 := by
  unfold length_of_stay_for
  calc (1:ℤ) ≤ (los_base_draw useNp d r).1 := los_base_draw_ge_one useNp d r
    _ ≤ (los_age_bonus age (los_base_draw useNp d r)).1 := los_age_bonus_mono _ _
    _ ≤ (los_long_tail (los_age_bonus age (los_base_draw useNp d r))).1 :=
        los_long_tail_mono _

/-- C5: every clamped numeric field stays inside its documented bound on
both the numpy and the stdlib sampling branch: age in `[18, 100]`, BMI in
`[15, 45]`, cholesterol in `[100, 400]`, HbA1c within its documented clamps
(inside `[4.5, 15]`), systolic in `[70, 220]`, diastolic in `[40, 130]`,
prior admissions in `[0, 20]` (the lower bound holds by the type), and
length of stay at least 1. -/
theorem C5_clamped_fields_in_bounds :
    (∀ (useNp : Bool) (r : RNG),
      18 ≤ (realistic_age useNp r).1 ∧ (realistic_age useNp r).1 ≤ 100) ∧
    (∀ (useNp : Bool) (age : ℤ) (r : RNG),
      15 ≤ (realistic_bmi useNp age r).1 ∧ (realistic_bmi useNp age r).1 ≤ 45) ∧
    (∀ (age : ℤ) (r : RNG),
      100 ≤ (realistic_cholesterol age r).1 ∧
      (realistic_cholesterol age r).1 ≤ 400) ∧
    (∀ (d : String) (r : RNG),
      45/10 ≤ (realistic_hba1c d r).1 ∧ (realistic_hba1c d r).1 ≤ 15) ∧
    (∀ (useNp : Bool) (age : ℤ) (d : String) (r : RNG),
      70 ≤ (realistic_bp useNp age d r).1.1 ∧
      (realistic_bp useNp age d r).1.1 ≤ 220 ∧
      40 ≤ (realistic_bp useNp age d r).1.2 ∧
      (realistic_bp useNp age d r).1.2 ≤ 130) ∧
    (∀ (useNp : Bool) (age : ℤ) (r : RNG),
      (prior_admissions_for useNp age r).1 ≤ 20) ∧
    (∀ (useNp : Bool) (d : String) (age : ℤ) (r : RNG),
      1 ≤ (length_of_stay_for useNp d age r).1) :=
  ⟨realistic_age_bounds, realistic_bmi_bounds, realistic_cholesterol_bounds,
   realistic_hba1c_bounds, realistic_bp_bounds, prior_admissions_bounds,
   length_of_stay_ge_one⟩

/-- Every medication pool in the formulary (and the fallback) holds at
least two drugs. -/
lemma pool_len (d : String) : 2 ≤ (MEDICATION_POOLS_get d).length := by
  unfold MEDICATION_POOLS_get
  split_ifs <;> decide

/-- Every medication pool is duplicate-free. -/
lemma pool_nodup (d : String) : (MEDICATION_POOLS_get d).Nodup := by
  unfold MEDICATION_POOLS_get
  split_ifs <;> decide

/-- The drawn medication count is 1, 2 or 3. -/
lemma meds_count_bounds (r : RNG) :
    1 ≤ (meds_count_draw r).1 ∧ (meds_count_draw r).1 ≤ 3 := by
  have h := choicesW_mem ([1, 2, 3] : List ℕ) [6/10, 3/10, 1/10] 1 r (by decide)
  have h2 : (meds_count_draw r).1 = (choicesW [1, 2, 3] [6/10, 3/10, 1/10] 1 r).1 := rfl
  rw [h2]
  simp only [List.mem_cons, List.not_mem_nil, or_false] at h
  rcases h with h | h | h <;> omega

/-- The number of selected medications is `min(k, len(pool))` for the
drawn `k`. -/
lemma select_medications_length (d : String) (r : RNG) :
    ((select_medications d r).1).length =
      min (meds_count_draw r).1 (MEDICATION_POOLS_get d).length := by
  unfold select_medications
  dsimp only
  rw [sampleList_length]
  omega

/-- C6: the medications of every generated record number between 1 and 3,
are pairwise distinct, and all come from the formulary of the record's
diagnosis (the fallback pool when the diagnosis is unmapped). -/
theorem C6_medications_valid (d : String) (r : RNG) :
    1 ≤ ((select_medications d r).1).length ∧
    ((select_medications d r).1).length ≤ 3 ∧
    ((select_medications d r).1).Nodup ∧
    ∀ m ∈ (select_medications d r).1, m ∈ MEDICATION_POOLS_get d := by
  have hlen := select_medications_length d r
  have hk := meds_count_bounds r
  have hp := pool_len d
  refine ⟨by omega, by omega, ?_, ?_⟩
  · unfold select_medications
    dsimp only
    exact sampleList_nodup _ _ _ (pool_nodup d)
  · unfold select_medications
    dsimp only
    exact sampleList_subset _ _ _

/-- C7: every generator is total, and a diagnosis absent from the parameter
table and the formulary falls back to the `"Other"` row everywhere:
length-of-stay sampling, medication selection and risk computation behave
exactly as for `"Other"` and return a normal result. -/
theorem C7_unknown_diagnosis_fallback (d : String)
    (hd : d ∉ DIAGNOSES_keys) :
    DIAGNOSES_get d = DIAGNOSES_get "Other" ∧
    MEDICATION_POOLS_get d = MEDICATION_POOLS_get "Other" ∧
    (∀ (useNp : Bool) (age : ℤ) (r : RNG),
      length_of_stay_for useNp d age r = length_of_stay_for useNp "Other" age r) ∧
    (∀ r : RNG, select_medications d r = select_medications "Other" r) ∧
    (∀ (age : ℚ) (pa : ℕ) (los : ℤ) (s : String) (bmi : ℚ),
      readmission_risk age d pa los s bmi =
        readmission_risk age "Other" pa los s bmi) := by
  simp only [DIAGNOSES_keys, List.mem_cons, List.not_mem_nil, or_false] at hd
  push_neg at hd
  obtain ⟨h1, h2, h3, h4, h5, h6, h7, h8, h9, _⟩ := hd
  have hD : DIAGNOSES_get d = DIAGNOSES_get "Other" := by
    unfold DIAGNOSES_get
    rw [if_neg h1, if_neg h2, if_neg h3, if_neg h4, if_neg h5, if_neg h6,
      if_neg h7, if_neg h8, if_neg h9]
    simp
  have hM : MEDICATION_POOLS_get d = MEDICATION_POOLS_get "Other" := by
    unfold MEDICATION_POOLS_get
    rw [if_neg h1, if_neg h2, if_neg h3, if_neg h4, if_neg h5, if_neg h6,
      if_neg h7, if_neg h8, if_neg h9]
    simp
  refine ⟨hD, hM, ?_, ?_, ?_⟩
  · intro useNp age r
    unfold length_of_stay_for los_base_draw
    rw [hD]
  · intro r
    unfold select_medications
    rw [hM]
  · intro age pa los s bmi
    unfold readmission_risk
    rw [hD]

/-- Witness for C7 at the unmapped diagnosis `"Flu"`. -/
theorem C7_witness :
    DIAGNOSES_get "Flu" = DIAGNOSES_get "Other" ∧
    MEDICATION_POOLS_get "Flu" = MEDICATION_POOLS_get "Other" ∧
    (∀ (useNp : Bool) (age : ℤ) (r : RNG),
      length_of_stay_for useNp "Flu" age r =
        length_of_stay_for useNp "Other" age r) ∧
    (∀ r : RNG, select_medications "Flu" r = select_medications "Other" r) ∧
    (∀ (age : ℚ) (pa : ℕ) (los : ℤ) (s : String) (bmi : ℚ),
      readmission_risk age "Flu" pa los s bmi =
        readmission_risk age "Other" pa los s bmi) :=
  C7_unknown_diagnosis_fallback "Flu" (by decide)

/-- A running CSV file that is nonempty and holds exactly one header keeps
that shape under any further sequence of appends. -/
lemma runAppends_header_aux (bs : List (List Record)) :
    ∀ (l : List CsvLine), l ≠ [] → l.countP CsvLine.isHeader = 1 →
    ((runAppends (some l) bs).getD []).countP CsvLine.isHeader = 1 ∧
    (runAppends (some l) bs).getD [] ≠ [] := by
  induction bs with
  | nil =>
    intro l hne hc
    simpa [runAppends] using ⟨hc, hne⟩
  | cons b bs ih =>
    intro l hne hc
    rw [runAppends]
    have hemp : l.isEmpty = false := by
      simpa [List.isEmpty_iff] using hne
    have hne2 : append_to_csv b (some l) ≠ [] := by
      unfold append_to_csv
      simp [hemp, hne]
    have hc2 : (append_to_csv b (some l)).countP CsvLine.isHeader = 1 := by
      unfold append_to_csv
      dsimp only [Option.getD]
      rw [hemp]
      simp only [Bool.false_eq_true, if_false, List.countP_append,
        List.countP_nil, List.countP_map]
      have hrow : b.countP (CsvLine.isHeader ∘ CsvLine.row) = 0 := by
        simp [CsvLine.isHeader, Function.comp]
      omega
    exact ih _ hne2 hc2

/-- C8: the CSV writer appends exactly one row per record; it adds a header
exactly when the target file is missing or empty, so over any nonempty
sequence of appends that starts from a missing or empty file the final file
holds exactly one header, and an existing non-empty file never receives a
second one. -/
theorem C8_csv_append_contract :
    (∀ (rows : List Record) (file : Option (List CsvLine)),
      (append_to_csv rows file).countP CsvLine.isRow =
        (file.getD []).countP CsvLine.isRow + rows.length) ∧
    (∀ (rows : List Record) (file : Option (List CsvLine)),
      (append_to_csv rows file).countP CsvLine.isHeader =
        (file.getD []).countP CsvLine.isHeader +
          (if (file.getD []).isEmpty then 1 else 0)) ∧
    (∀ bs : List (List Record), bs ≠ [] →
      ((runAppends none bs).getD []).countP CsvLine.isHeader = 1) := by
  refine ⟨?_, ?_, ?_⟩
  · intro rows file
    unfold append_to_csv
    dsimp only
    rw [List.countP_append, List.countP_append, List.countP_map]
    have h1 : (if (file.getD []).isEmpty then [CsvLine.header] else
        []).countP CsvLine.isRow = 0 := by
      split <;> simp [CsvLine.isRow, List.countP_cons]
    have h2 : rows.countP (CsvLine.isRow ∘ CsvLine.row) =
        rows.length := by
      simp [CsvLine.isRow, Function.comp]
    omega
  · intro rows file
    unfold append_to_csv
    dsimp only
    rw [List.countP_append, List.countP_append, List.countP_map]
    have h1 : (if (file.getD []).isEmpty then [CsvLine.header] else
        []).countP CsvLine.isHeader = if (file.getD []).isEmpty then 1 else 0 := by
      split <;> simp [CsvLine.isHeader, List.countP_cons]
    have h2 : rows.countP (CsvLine.isHeader ∘ CsvLine.row) = 0 := by
      simp [CsvLine.isHeader]
    omega
  · intro bs hbs
    rcases bs with _ | ⟨b, bs⟩
    · exact absurd rfl hbs
    · rw [runAppends]
      have hfirst : append_to_csv b none = CsvLine.header :: b.map CsvLine.row := by
        unfold append_to_csv
        simp
      refine (runAppends_header_aux bs _ ?_ ?_).1
      · rw [hfirst]
        exact List.cons_ne_nil _ _
      · rw [hfirst]
        simp only [List.countP_cons, List.countP_map]
        have hrow : b.countP (CsvLine.isHeader ∘ CsvLine.row) = 0 := by
          simp [CsvLine.isHeader]
        simp [CsvLine.isHeader, hrow]

/-- Witness for C8 at a concrete batch sequence and file states. -/
theorem C8_witness :
    ((append_to_csv [] none).countP CsvLine.isRow =
      ((none : Option (List CsvLine)).getD []).countP CsvLine.isRow +
        ([] : List Record).length) ∧
    ((append_to_csv [] (some [CsvLine.header])).countP CsvLine.isHeader =
      ((some [CsvLine.header]).getD []).countP CsvLine.isHeader +
        (if ((some [CsvLine.header]).getD []).isEmpty then 1 else 0)) ∧
    ((runAppends none [[], []]).getD []).countP CsvLine.isHeader = 1 :=
  ⟨C8_csv_append_contract.1 [] none,
   C8_csv_append_contract.2.1 [] (some [CsvLine.header]),
   C8_csv_append_contract.2.2 [[], []] (by simp)⟩

/-- C9: the number of selected medications is `min(k, len(pool))` for the
drawn count `k ∈ {1,2,3}`, so a diagnosis whose formulary lists only two
drugs (Pneumonia, COPD, Fracture, Sepsis, Cancer, Other) never yields three
medications even though `k = 3` is drawn with positive probability. -/
theorem C9_two_drug_pools_never_three :
    (∀ (d : String) (r : RNG),
      ((select_medications d r).1).length =
        min (meds_count_draw r).1 (MEDICATION_POOLS_get d).length) ∧
    (∀ d ∈ (["Pneumonia", "COPD", "Fracture", "Sepsis", "Cancer",
        "Other"] : List String),
      ∀ r : RNG, ((select_medications d r).1).length ≠ 3) := by
  refine ⟨select_medications_length, ?_⟩
  intro d hd r
  have h := select_medications_length d r
  have hk := meds_count_bounds r
  have hp : (MEDICATION_POOLS_get d).length = 2 := by
    simp only [List.mem_cons, List.not_mem_nil, or_false] at hd
    rcases hd with rfl | rfl | rfl | rfl | rfl | rfl <;> decide
  omega

/-- Witness for C9 at the diagnosis Pneumonia and a concrete RNG state. -/
theorem C9_witness :
    ((select_medications "Pneumonia" ⟨fun _ => 0, 0⟩).1).length =
      min (meds_count_draw ⟨fun _ => 0, 0⟩).1
        (MEDICATION_POOLS_get "Pneumonia").length ∧
    ((select_medications "Pneumonia" ⟨fun _ => 0, 0⟩).1).length ≠ 3 :=
  ⟨C9_two_drug_pools_never_three.1 "Pneumonia" ⟨fun _ => 0, 0⟩,
   C9_two_drug_pools_never_three.2 "Pneumonia" (by decide) ⟨fun _ => 0, 0⟩⟩

/-- C10: when numpy is unavailable, the stdlib fallback counts successes of
6 Bernoulli trials, so prior admissions never exceed 6 — strictly tighter
than the documented cap of 20, which only the numpy Poisson branch can
reach. -/
theorem C10_stdlib_prior_admissions_le_six (age : ℤ) (r : RNG) :
    (prior_admissions_for false age r).1 ≤ 6 := by
  unfold prior_admissions_for
  simp only [Bool.false_eq_true, if_false]
  have h := bernoulliTrials_le
    ((if age < 40 then 2/10 else if age < 65 then 7/10 else (16/10 : ℚ)) /
      (15/10)) 6 r
  omega

set_option maxHeartbeats 2000000 in
/-- One generation step consumes seeded randomness identically whatever the
uuid token and clock readings are: the seeded fields of the produced record
and the outgoing RNG state do not depend on them. -/
lemma generate_patient_record_seeded_eq (useNp : Bool) (r : RNG)
    (u1 : ℕ) (n1 n2 : ℤ) (u2 : ℕ) (n1' n2' : ℤ) :
    seededFields (generate_patient_record useNp r u1 n1 n2).1 =
      seededFields (generate_patient_record useNp r u2 n1' n2').1 ∧
    (generate_patient_record useNp r u1 n1 n2).2 =
      (generate_patient_record useNp r u2 n1' n2').2 := by
  constructor <;> rfl

set_option maxHeartbeats 2000000 in
/-- C1 (amended): two runs seeded identically and invoked the same number
of times produce identical sequences of all seed-derived fields — every
field except `PatientID`, `AdmissionDate`, `DischargeDate` and
`RecordGeneratedAt` — whatever the runs' uuid entropy and wall-clock
streams are; those four excluded fields come from `uuid.uuid4()` and
`datetime.now()`, which the seed does not determine. -/
theorem C1_amended_seeded_determinism (useNp : Bool) (r : RNG)
    (u1 u2 : ℕ → ℕ) (c1 c2 : ℕ → ℤ) (n : ℕ) :
    (runGenerator useNp r u1 c1 n).map seededFields =
      (runGenerator useNp r u2 c2 n).map seededFields := by
  unfold runGenerator
  suffices h : ∀ (m i j : ℕ) (r' : RNG),
      (runGeneratorFrom useNp u1 c1 r' i m).map seededFields =
        (runGeneratorFrom useNp u2 c2 r' j m).map seededFields from
    h n 0 0 r
  intro m
  induction m with
  | zero =>
    intro i j r'
    rfl
  | succ m ih =>
    intro i j r'
    rw [runGeneratorFrom, runGeneratorFrom]
    dsimp only
    rw [List.map_cons, List.map_cons]
    have hstep := generate_patient_record_seeded_eq useNp r'
      (u1 i) (c1 (2 * i)) (c1 (2 * i + 1))
      (u2 j) (c2 (2 * j)) (c2 (2 * j + 1))
    rw [hstep.1, hstep.2]
    exact congrArg (List.cons _) (ih (i + 1) (j + 1) _)

set_option maxHeartbeats 2000000 in
/-- The PatientID of a generated record is exactly the uuid token handed to
the call. -/
lemma generate_patient_record_pid (useNp : Bool) (r : RNG) (u : ℕ)
    (n1 n2 : ℤ) : (generate_patient_record useNp r u n1 n2).1.PatientID = u :=
  rfl

/-- A single-record run maps to the first uuid token. -/
lemma runGenerator_one_pid (useNp : Bool) (r : RNG) (u : ℕ → ℕ)
    (c : ℕ → ℤ) :
    (runGenerator useNp r u c 1).map Record.PatientID = [u 0] := by
  rw [runGenerator]
  simp only [runGeneratorFrom]
  rw [List.map_cons, List.map_nil, generate_patient_record_pid]

/-- C1 counterexample: two runs whose seeded random sources start in the
same state but whose uuid entropy differs produce different Record
sequences — the claim that the full Records (PatientID included) are
determined by the seed is false, because `uuid.uuid4()` is not derived from
the seed. -/
theorem C1_counterexample :
    runGenerator false ⟨fun _ => 0, 0⟩ (fun _ => 0) (fun _ => 0) 1 ≠
      runGenerator false ⟨fun _ => 0, 0⟩ (fun _ => 1) (fun _ => 0) 1 := by
  intro h
  have h2 := congrArg (List.map Record.PatientID) h
  rw [runGenerator_one_pid, runGenerator_one_pid] at h2
  simp at h2

/-- Witness for C6 at the fallback diagnosis and a concrete RNG state. -/
theorem C6_witness :
    1 ≤ ((select_medications "Other" ⟨fun _ => 0, 0⟩).1).length ∧
    ((select_medications "Other" ⟨fun _ => 0, 0⟩).1).length ≤ 3 ∧
    ((select_medications "Other" ⟨fun _ => 0, 0⟩).1).Nodup ∧
    "Analgesics" ∈ MEDICATION_POOLS_get "Other" :=
  ⟨(C6_medications_valid "Other" ⟨fun _ => 0, 0⟩).1,
   (C6_medications_valid "Other" ⟨fun _ => 0, 0⟩).2.1,
   (C6_medications_valid "Other" ⟨fun _ => 0, 0⟩).2.2.1,
   (C6_medications_valid "Other" ⟨fun _ => 0, 0⟩).2.2.2 "Analgesics" (by decide)⟩
